import Mathlib

/-!
Verification of the ANPR PDF report pipeline (src/test2.py) against its
natural-language specification.

The embedding models strings as Lean String values (lists of characters).
Python str.strip is modelled by pyStrip, str.upper and str.lower by the
character-wise pyToUpper and pyToLower (ASCII case mapping). Machine-level concerns such as
the concrete spreadsheet container, the PDF byte stream and the HTTP layer
are abstracted: the pipeline is modelled at the level of parsed rows,
per-group summaries and named archive entries, which is what the claims
are about.
-/

/-- Python str.strip, modelled on the character list of a string: drop
leading and trailing whitespace (test2.py lines 32-33). -/
def pyStrip (l : List Char) : List Char :=
  ((l.dropWhile Char.isWhitespace).reverse.dropWhile Char.isWhitespace).reverse

/-- String-level strip. -/
def pyStripS (s : String) : String := String.mk (pyStrip s.data)

/-- Python str.lower, modelled character-wise on the list of characters
(ASCII case mapping, which covers every string the pipeline compares). -/
def pyToLower (s : String) : String := String.mk (s.data.map Char.toLower)

/-- Python str.upper, modelled character-wise like pyToLower. -/
def pyToUpper (s : String) : String := String.mk (s.data.map Char.toUpper)

/-- The substitution-counting loop of the classifier (test2.py lines 43-46):
walks both strings in lockstep and counts positions that disagree. The loop
is only reached when the lengths are equal; the recursion stops at the end
of the shorter list, which agrees with the Python loop in that case. -/
def hammingCount : List Char → List Char → Nat
  | a :: as, b :: bs => (if a = b then 0 else 1) + hammingCount as bs
  | _, _ => 0

/-- Single-character deletion at position k (test2.py line 55):
the prefix before k concatenated with the suffix after k. -/
def deleteAt (l : List Char) (k : Nat) : List Char := l.take k ++ l.drop (k + 1)

/-- The deletion-search loop of the classifier (test2.py lines 54-58):
some deletion position in the longer string yields the shorter string. -/
def delMatch (longer shorter : List Char) : Bool :=
  (List.range longer.length).any (fun k => deleteAt longer k == shorter)

/-- The longer of the two trimmed strings, as selected by the swap at
test2.py lines 51-52 (on equal lengths it returns the first). -/
def longerOf (t1 t2 : List Char) : List Char :=
  if t1.length < t2.length then t2 else t1

/-- The shorter of the two trimmed strings, companion of longerOf. -/
def shorterOf (t1 t2 : List Char) : List Char :=
  if t1.length < t2.length then t1 else t2

/-- Core of check_exactly_one_mismatch_or_missing after the trimming step
(test2.py lines 35-60): equal strings are rejected, equal lengths take the
substitution count, length difference one takes the deletion search, and
everything else is rejected. -/
def checkCore (t1 t2 : List Char) : Bool :=
  if t1 = t2 then false
  else if t1.length = t2.length then hammingCount t1 t2 == 1
  else if ((t1.length : Int) - (t2.length : Int)).natAbs = 1 then
    delMatch (longerOf t1 t2) (shorterOf t1 t2)
  else false

/-- check_exactly_one_mismatch_or_missing (test2.py lines 27-60), the
near-mismatch classifier: both arguments are trimmed first, then checkCore
decides. The spec calls this function isNearMismatch. -/
def check_exactly_one_mismatch_or_missing (s1 s2 : String) : Bool :=
  checkCore (pyStrip s1.data) (pyStrip s2.data)

/-- Spec-side notion of Hamming distance for the refinement statement of C1:
the number of positions at which the two (equal-length) strings disagree. -/
def specHammingDistance (t1 t2 : List Char) : Nat :=
  (t1.zip t2).countP (fun p => p.1 != p.2)

theorem hammingCount_self : ∀ l : List Char, hammingCount l l = 0
  | [] => rfl
  | a :: as => by simp [hammingCount, hammingCount_self as]

theorem hammingCount_comm : ∀ a b : List Char, hammingCount a b = hammingCount b a
  | [], [] => rfl
  | [], _ :: _ => rfl
  | _ :: _, [] => rfl
  | a :: as, b :: bs => by
    simp only [hammingCount, hammingCount_comm as bs]
    by_cases h : a = b
    · subst h; rfl
    · rw [if_neg h, if_neg (Ne.symm h)]

theorem hammingCount_eq_spec : ∀ a b : List Char, hammingCount a b = specHammingDistance a b
  | [], [] => rfl
  | [], _ :: _ => rfl
  | _ :: _, [] => rfl
  | a :: as, b :: bs => by
    simp only [hammingCount, specHammingDistance, List.zip_cons_cons, List.countP_cons,
      hammingCount_eq_spec as bs]
    by_cases h : a = b
    · simp [h, specHammingDistance]
    · simp [h, specHammingDistance, Nat.add_comm]

theorem checkCore_eq_len (t1 t2 : List Char) (h : t1.length = t2.length) :
    checkCore t1 t2 = true ↔ hammingCount t1 t2 = 1 := by
  by_cases he : t1 = t2
  · subst he
    simp [checkCore, hammingCount_self]
  · simp [checkCore, he, h]

theorem checkCore_diff_one (t1 t2 : List Char)
    (h : ((t1.length : Int) - (t2.length : Int)).natAbs = 1) :
    checkCore t1 t2 = true ↔
      ∃ k, k < (longerOf t1 t2).length ∧ deleteAt (longerOf t1 t2) k = shorterOf t1 t2 := by
  have hne : t1.length ≠ t2.length := by
    intro hl
    rw [hl] at h
    simp at h
  have hne2 : t1 ≠ t2 := fun he => hne (by rw [he])
  simp only [checkCore, if_neg hne2, if_neg hne, if_pos h, delMatch]
  simp [List.any_eq_true, List.mem_range]

theorem checkCore_diff_ge_two (t1 t2 : List Char)
    (h : 2 ≤ ((t1.length : Int) - (t2.length : Int)).natAbs) :
    checkCore t1 t2 = false := by
  have h1 : ((t1.length : Int) - (t2.length : Int)).natAbs ≠ 1 := by omega
  have hne : t1.length ≠ t2.length := by
    intro hl
    rw [hl] at h
    simp at h
  have hne2 : t1 ≠ t2 := fun he => hne (by rw [he])
  simp [checkCore, hne2, hne, h1]

theorem longerOf_comm (t1 t2 : List Char) (h : t1.length ≠ t2.length) :
    longerOf t1 t2 = longerOf t2 t1 := by
  rcases Nat.lt_or_ge t1.length t2.length with hlt | hge
  · rw [longerOf, if_pos hlt, longerOf, if_neg (by omega)]
  · have hlt2 : t2.length < t1.length := by omega
    rw [longerOf, if_neg (by omega), longerOf, if_pos hlt2]

theorem shorterOf_comm (t1 t2 : List Char) (h : t1.length ≠ t2.length) :
    shorterOf t1 t2 = shorterOf t2 t1 := by
  rcases Nat.lt_or_ge t1.length t2.length with hlt | hge
  · rw [shorterOf, if_pos hlt, shorterOf, if_neg (by omega)]
  · have hlt2 : t2.length < t1.length := by omega
    rw [shorterOf, if_neg (by omega), shorterOf, if_pos hlt2]

theorem checkCore_comm (t1 t2 : List Char) : checkCore t1 t2 = checkCore t2 t1 := by
  by_cases he : t1 = t2
  · subst he; rfl
  · have he2 : t2 ≠ t1 := Ne.symm he
    by_cases hl : t1.length = t2.length
    · simp only [checkCore, if_neg he, if_neg he2, if_pos hl, if_pos hl.symm]
      rw [hammingCount_comm]
    · have hl2 : t2.length ≠ t1.length := Ne.symm hl
      have habs : ((t1.length : Int) - (t2.length : Int)).natAbs
          = ((t2.length : Int) - (t1.length : Int)).natAbs := by
        rw [← Int.natAbs_neg, neg_sub]
      by_cases h1 : ((t1.length : Int) - (t2.length : Int)).natAbs = 1
      · have h1b : ((t2.length : Int) - (t1.length : Int)).natAbs = 1 := by rw [← habs]; exact h1
        simp only [checkCore, if_neg he, if_neg he2, if_neg hl, if_neg hl2, if_pos h1, if_pos h1b]
        rw [longerOf_comm t1 t2 hl, shorterOf_comm t1 t2 hl]
      · have h1b : ((t2.length : Int) - (t1.length : Int)).natAbs ≠ 1 := by rw [← habs]; exact h1
        simp [checkCore, he, he2, hl, hl2, h1, h1b]

/-- C1: for strings of equal trimmed length, the classifier returns true
exactly when the Hamming distance of the trimmed strings is 1; and on any
pair of identical strings it returns false. -/
theorem C1_equal_length_hamming :
    (∀ a b : String, (pyStrip a.data).length = (pyStrip b.data).length →
      (check_exactly_one_mismatch_or_missing a b = true ↔
        specHammingDistance (pyStrip a.data) (pyStrip b.data) = 1)) ∧
    (∀ s : String, check_exactly_one_mismatch_or_missing s s = false) := by
  constructor
  · intro a b h
    rw [check_exactly_one_mismatch_or_missing, ← hammingCount_eq_spec]
    exact checkCore_eq_len _ _ h
  · intro s
    simp [check_exactly_one_mismatch_or_missing, checkCore]

/-- Witness for C1 at a concrete input: ABC123 versus ABD123 differ in
exactly one position and are classified as a near-mismatch. -/
theorem C1_equal_length_hamming_witness :
    check_exactly_one_mismatch_or_missing "ABC123" "ABD123" = true :=
  (C1_equal_length_hamming.1 "ABC123" "ABD123" (by decide)).mpr (by decide)

/-- C2: for strings whose trimmed lengths differ by exactly one, the
classifier returns true exactly when deleting some single position of the
longer trimmed string yields the shorter one; when the trimmed lengths
differ by two or more it returns false. -/
theorem C2_length_difference_deletion :
    (∀ a b : String,
      (((pyStrip a.data).length : Int) - ((pyStrip b.data).length : Int)).natAbs = 1 →
      (check_exactly_one_mismatch_or_missing a b = true ↔
        ∃ k, k < (longerOf (pyStrip a.data) (pyStrip b.data)).length ∧
          deleteAt (longerOf (pyStrip a.data) (pyStrip b.data)) k
            = shorterOf (pyStrip a.data) (pyStrip b.data))) ∧
    (∀ a b : String,
      2 ≤ (((pyStrip a.data).length : Int) - ((pyStrip b.data).length : Int)).natAbs →
      check_exactly_one_mismatch_or_missing a b = false) := by
  constructor
  · intro a b h
    rw [check_exactly_one_mismatch_or_missing]
    exact checkCore_diff_one _ _ h
  · intro a b h
    rw [check_exactly_one_mismatch_or_missing]
    exact checkCore_diff_ge_two _ _ h

/-- Witness for C2 at concrete inputs: deleting position 5 of ABC123 yields
ABC12, so the pair is classified true; AB versus ABCD (length difference 2)
is classified false. -/
theorem C2_length_difference_deletion_witness :
    check_exactly_one_mismatch_or_missing "ABC123" "ABC12" = true ∧
    check_exactly_one_mismatch_or_missing "AB" "ABCD" = false :=
  ⟨(C2_length_difference_deletion.1 "ABC123" "ABC12" (by decide)).mpr
      ⟨5, by decide, by decide⟩,
    C2_length_difference_deletion.2 "AB" "ABCD" (by decide)⟩

/-- C10: the classifier is symmetric in its two arguments. -/
theorem C10_classifier_symmetric (a b : String) :
    check_exactly_one_mismatch_or_missing a b = check_exactly_one_mismatch_or_missing b a := by
  rw [check_exactly_one_mismatch_or_missing, check_exactly_one_mismatch_or_missing]
  exact checkCore_comm _ _

/-!
Pipeline embedding. A Row models one parsed spreadsheet row: the three
required cells are modelled after the astype(str) conversion the loader
applies (a pandas NaN cell becomes the string nan under astype(str)),
while the optional ANPR Sequence cell is kept as Option String because the
zero-sequence count tests it with isnull before any string conversion.
A Sheet records which columns exist in the worksheet; the image columns
never influence control flow (create_pdf_report reindexes with an empty
default and row rendering degrades to a placeholder), but their presence
flags are kept for fidelity to the input schema.
-/

structure Row where
  anpr : String
  tc : String
  source : String
  sequence : Option String
  image_path : Option String
  vehicle_image : Option String
deriving DecidableEq

structure Sheet where
  hasAnpr : Bool
  hasTc : Bool
  hasSource : Bool
  hasSeq : Bool
  hasImg : Bool
  hasVeh : Bool
  rows : List Row
deriving DecidableEq

/-- Error message of the required-column validation (test2.py line 78). -/
def missing_columns_msg : String :=
  "Excel missing required columns: **ANPR Plate Number**, **TC_PLATE Number**, or **source**."

/-- Data cleaning applied to each row (test2.py lines 81-83): plate columns
are trimmed and upper-cased, the source column is trimmed. -/
def normalize_row (r : Row) : Row :=
  { r with
    anpr := pyToUpper (pyStripS r.anpr)
    tc := pyToUpper (pyStripS r.tc)
    source := pyStripS r.source }

/-- process_excel_data (test2.py lines 62-104): validates the three required
columns, cleans the data, filters by the classifier, and returns the
mismatch subset, its size and the full dataset. A missing required column
is the ValueError of line 78, returned to the route as a message string
(the SchemaError of the spec). The spreadsheet-container failure modes
(BadZipFile and other read errors) are below the parsed-rows abstraction
of this model and are not needed by any claim. -/
def process_excel_data (sheet : Sheet) : Except String (List Row × Nat × List Row) :=
  if sheet.hasAnpr && sheet.hasTc && sheet.hasSource then
    let full_df := sheet.rows.map normalize_row
    let mismatch_df := full_df.filter
      (fun row => check_exactly_one_mismatch_or_missing row.anpr row.tc)
    .ok (mismatch_df, mismatch_df.length, full_df)
  else
    .error missing_columns_msg

/-- Python astype(str) on the sequence cell: a null cell renders as nan. -/
def pySeqStr : Option String → String
  | none => "nan"
  | some s => s

/-- The zero-sequence row mask of create_pdf_report (test2.py lines 234-238):
trimmed string form equal to 0, or a null cell, or trimmed string form
equal to unidentified (the comparison in the code is case-sensitive). -/
def zeroSeqMask (r : Row) : Bool :=
  (pyStripS (pySeqStr r.sequence) == "0") || r.sequence.isNone ||
    (pyStripS (pySeqStr r.sequence) == "unidentified")

/-- The data carried by one rendered PDF that the claims are about: the
report title and the summary block printed by print_summary (test2.py
lines 194-220). percentLine is the value of the Mismatch Percentage line,
none when the line is omitted; drawing, pagination and the byte encoding
of the PDF are below this abstraction. -/
structure PdfDoc where
  title : String
  totalCount : Nat
  mismatchCount : Nat
  zeroSeqCount : Nat
  percentLine : Option Rat
deriving DecidableEq

/-- create_pdf_report (test2.py lines 223-268) at the summary level. When
the worksheet has no ANPR Sequence column, line 234 indexes a missing
column and raises a KeyError, modelled as the error branch. Otherwise the
summary counts are computed from the two dataframes of the group, and the
percentage line follows print_summary (lines 215-219): present only when
total_count is positive, with value (mismatch / total) * 100. -/
def create_pdf_report (hasSeq : Bool) (df_mismatch df_full_source : List Row)
    (source_name : String) : Except String PdfDoc :=
  if hasSeq then
    .ok
      { title := source_name
        totalCount := df_full_source.length
        mismatchCount := df_mismatch.length
        zeroSeqCount := (df_full_source.filter zeroSeqMask).length
        percentLine :=
          if 0 < df_full_source.length then
            some (((df_mismatch.length : Rat) / (df_full_source.length : Rat)) * 100)
          else none }
  else
    .error "KeyError: ANPR Sequence"

/-- allowed_file (test2.py lines 22-25): the name contains a dot and the
piece after the last dot lower-cases to xlsx or xls. -/
def extAfterLastDot (s : String) : String :=
  String.mk ((s.data.reverse.takeWhile (fun c => c != '.')).reverse)

def allowed_file (filename : String) : Bool :=
  filename.data.contains '.' &&
    (pyToLower (extAfterLastDot filename) == "xlsx" ||
      pyToLower (extAfterLastDot filename) == "xls")

/-- Whitespace split of Python str.split with no argument: maximal
non-whitespace runs, empty pieces dropped. -/
def splitWsAux (acc : List Char) : List Char → List (List Char)
  | [] => if acc.isEmpty then [] else [acc.reverse]
  | c :: rest =>
    if c.isWhitespace then
      if acc.isEmpty then splitWsAux [] rest
      else acc.reverse :: splitWsAux [] rest
    else splitWsAux (c :: acc) rest

/-- Strip leading and trailing dots and underscores, as str.strip with the
two characters dot and underscore. -/
def stripDotUnderscore (l : List Char) : List Char :=
  ((l.dropWhile (fun c => c == '.' || c == '_')).reverse.dropWhile
    (fun c => c == '.' || c == '_')).reverse

/-- Model of werkzeug.utils.secure_filename, the third-party sanitizer the
route applies to entry names (test2.py line 330): path separators become
spaces, whitespace runs are joined with underscores, characters outside
ASCII alphanumerics, underscore, dot and hyphen are dropped, and leading or
trailing dots and underscores are stripped. The Windows reserved-name and
empty-name fallbacks of werkzeug are not modelled; no claim depends on
them. -/
def secure_filename (s : String) : String :=
  let replaced := s.data.map (fun c => if c = '/' then ' ' else c)
  let joined := List.intercalate ['_'] (splitWsAux [] replaced)
  let kept := joined.filter (fun c => c.isAlphanum || c == '_' || c == '.' || c == '-')
  String.mk (stripDotUnderscore kept)

/-- Sentinel substitution for the report title (test2.py lines 323-324):
an empty source, or one whose trimmed lower-case form is nan, is renamed
UNSPECIFIED_SOURCE. -/
def display_source_name (s : String) : String :=
  if s = "" ∨ pyToLower (pyStripS s) = "nan" then "UNSPECIFIED_SOURCE" else s

structure ZipEntry where
  name : String
  pdf : PdfDoc
deriving DecidableEq

/-- Outcome of the upload route: an error flash with redirect, the
no-mismatch success flash with redirect, or an archive download whose
entries are the generated PDFs. -/
inductive UploadOutcome where
  | errorRedirect (msg : String)
  | successNoArchive (msg : String)
  | archiveDownload (entries : List ZipEntry) (msg : String)
deriving DecidableEq

/-- The report-generation loop of the route (test2.py lines 315-334): for
each distinct source key of the mismatch set, the corresponding full group
is fetched, the display name is fixed up, the PDF is generated and added to
the archive under the sanitized name. An exception from create_pdf_report
aborts the loop, carried here as the error branch. The keys are enumerated
once per distinct source value, as pandas groupby does; pandas iterates
them in sorted order while this model keeps a deterministic enumeration of
the same set of keys, which no claim distinguishes. -/
def buildEntries (hasSeq : Bool) (mismatch_df full_df : List Row) :
    List String → Except String (List ZipEntry)
  | [] => .ok []
  | key :: rest =>
    let mismatch_group := mismatch_df.filter (fun r => r.source == key)
    let full_group := full_df.filter (fun r => r.source == key)
    let source_name := display_source_name key
    match create_pdf_report hasSeq mismatch_group full_group source_name with
    | .error e => .error e
    | .ok pdf =>
      match buildEntries hasSeq mismatch_df full_df rest with
      | .error e => .error e
      | .ok entries =>
        .ok ({ name := "ANPR_Report_" ++ secure_filename source_name ++ ".pdf",
               pdf := pdf } :: entries)

/-- upload_file (test2.py lines 279-357), from the point where a file was
supplied: empty filename and disallowed extension are rejected, processing
errors are flashed, an empty mismatch set is the no-mismatch success
outcome, and otherwise the per-source reports are zipped and returned. An
exception raised during report generation is caught by the blanket handler
of line 351 and flashed. -/
def upload_file (filename : String) (sheet : Sheet) : UploadOutcome :=
  if filename = "" then .errorRedirect "No selected file."
  else if allowed_file filename then
    match process_excel_data sheet with
    | .error msg => .errorRedirect ("Processing Error: " ++ msg)
    | .ok (mismatch_df, count, full_df) =>
      if mismatch_df.isEmpty then
        .successNoArchive "✅ File processed successfully! No near-mismatches found."
      else
        match buildEntries sheet.hasSeq mismatch_df full_df
            ((mismatch_df.map (fun r => r.source)).dedup) with
        | .error e =>
          .errorRedirect ("An unexpected error occurred during processing or report generation: " ++ e)
        | .ok entries =>
          .archiveDownload entries
            ("✅ Found **" ++ toString count ++ "** total near-mismatches, grouped into **" ++
              toString entries.length ++ "** reports. Downloading ZIP file.")
  else .errorRedirect "Invalid file type. Only .xlsx and .xls are allowed."

/-- Names of the archive entries of an outcome, empty when no archive. -/
def archiveEntryNames : UploadOutcome → List String
  | .archiveDownload entries _ => entries.map ZipEntry.name
  | _ => []

/-- The zero-sequence count of a generated report, none on failure. -/
def zeroSeqCountOf : Except String PdfDoc → Option Nat
  | .ok p => some p.zeroSeqCount
  | .error _ => none

instance {e a : Type} [DecidableEq e] [DecidableEq a] : DecidableEq (Except e a) := fun x y =>
  match x, y with
  | .ok v, .ok w =>
    if h : v = w then isTrue (h ▸ rfl) else isFalse (fun hc => h (Except.ok.inj hc))
  | .error v, .error w =>
    if h : v = w then isTrue (h ▸ rfl) else isFalse (fun hc => h (Except.error.inj hc))
  | .ok _, .error _ => isFalse (fun hc => Except.noConfusion hc)
  | .error _, .ok _ => isFalse (fun hc => Except.noConfusion hc)

/-- Amended zero-sequence predicate, the one the code actually counts: the
sequence cell is null, or trims to the literal 0, or trims to exactly the
lower-case word unidentified. An empty trimmed cell is not counted and the
word comparison is case-sensitive. -/
def amendedZeroSequence (r : Row) : Bool :=
  match r.sequence with
  | none => true
  | some s => (pyStripS s == "0") || (pyStripS s == "unidentified")

/-- Zero-sequence predicate exactly as claim C3 words it, for comparison
with the code-side mask: null, empty after trimming, the trimmed literal 0,
or case-insensitively equal to unidentified after trimming. -/
def specZeroSequenceClaim (r : Row) : Bool :=
  match r.sequence with
  | none => true
  | some s =>
    (pyStripS s == "") || (pyStripS s == "0") || (pyToLower (pyStripS s) == "unidentified")

theorem zeroSeqMask_eq_amended (r : Row) : zeroSeqMask r = amendedZeroSequence r := by
  cases hs : r.sequence with
  | none => simp [zeroSeqMask, amendedZeroSequence, hs]
  | some s => simp [zeroSeqMask, amendedZeroSequence, hs, pySeqStr]

/-- C3 (amended): for every source group, the summary zeroSequenceCount
equals the number of rows of the full group whose sequence is null, trims
to the literal 0, or trims to exactly the lower-case word unidentified;
empty cells are not counted and the comparison is case-sensitive. -/
theorem C3_zero_sequence_count (dfm dff : List Row) (nm : String) (pdf : PdfDoc)
    (h : create_pdf_report true dfm dff nm = .ok pdf) :
    pdf.zeroSeqCount = dff.countP amendedZeroSequence := by
  simp only [create_pdf_report, if_true, Except.ok.injEq] at h
  subst h
  show (dff.filter zeroSeqMask).length = dff.countP amendedZeroSequence
  have hfun : zeroSeqMask = amendedZeroSequence := funext zeroSeqMask_eq_amended
  rw [List.countP_eq_length_filter, ← hfun]

/-- Concrete row whose sequence reads Unidentified with a capital U. -/
def rowUnidentified : Row :=
  { anpr := "ABC123", tc := "ABC123", source := "L1", sequence := some "Unidentified",
    image_path := none, vehicle_image := none }

/-- Counterexample to C3 as stated: on a full group holding one row whose
sequence is the word Unidentified with a capital U, the code computes a
zeroSequenceCount of 0, while the claimed case-insensitive predicate counts
the row, giving 1. -/
theorem C3_counterexample_case_sensitive :
    zeroSeqCountOf (create_pdf_report true [] [rowUnidentified] "L1") = some 0 ∧
    [rowUnidentified].countP specZeroSequenceClaim = 1 := by decide

/-- The concrete report generated from the group of rowUnidentified,
written with the same field expressions create_pdf_report produces. -/
def c3pdf : PdfDoc :=
  { title := "L1", totalCount := ([rowUnidentified] : List Row).length,
    mismatchCount := ([] : List Row).length,
    zeroSeqCount := (([rowUnidentified] : List Row).filter zeroSeqMask).length,
    percentLine :=
      if 0 < ([rowUnidentified] : List Row).length then
        some (((([] : List Row).length : Rat) / ((([rowUnidentified] : List Row).length : Rat))) * 100)
      else none }

/-- Witness for C3 (amended) at a concrete group. -/
theorem C3_zero_sequence_count_witness :
    c3pdf.zeroSeqCount = [rowUnidentified].countP amendedZeroSequence :=
  C3_zero_sequence_count [] [rowUnidentified] "L1" c3pdf rfl

/-- C6: for every generated report, when totalCount is positive the
Mismatch Percentage line carries exactly the value 100 * mismatchCount /
totalCount, and when totalCount is zero the line is omitted, the division
being guarded so it is never performed. -/
theorem C6_mismatch_percentage (hs : Bool) (dfm dff : List Row) (nm : String) (pdf : PdfDoc)
    (h : create_pdf_report hs dfm dff nm = .ok pdf) :
    (0 < pdf.totalCount →
      pdf.percentLine = some ((100 * (pdf.mismatchCount : Rat)) / (pdf.totalCount : Rat))) ∧
    (pdf.totalCount = 0 → pdf.percentLine = none) := by
  cases hs with
  | false => simp [create_pdf_report] at h
  | true =>
    simp only [create_pdf_report, if_true, Except.ok.injEq] at h
    subst h
    constructor
    · intro hpos
      show (if 0 < dff.length then
          some (((dfm.length : Rat) / (dff.length : Rat)) * 100) else none) =
        some ((100 * (dfm.length : Rat)) / (dff.length : Rat))
      rw [if_pos hpos]
      congr 1
      rw [div_mul_eq_mul_div, mul_comm]
    · intro h0
      show (if 0 < dff.length then
          some (((dfm.length : Rat) / (dff.length : Rat)) * 100) else none) = none
      have h0b : dff.length = 0 := h0
      rw [if_neg (by omega)]

/-- Concrete near-mismatch row used by the C6 witness. -/
def rowC6 : Row :=
  { anpr := "ABC123", tc := "ABD123", source := "L1", sequence := some "1",
    image_path := none, vehicle_image := none }

/-- The concrete report generated from the singleton group of rowC6,
written with the same field expressions create_pdf_report produces. -/
def c6pdf : PdfDoc :=
  { title := "L1", totalCount := ([rowC6] : List Row).length,
    mismatchCount := ([rowC6] : List Row).length,
    zeroSeqCount := (([rowC6] : List Row).filter zeroSeqMask).length,
    percentLine :=
      if 0 < ([rowC6] : List Row).length then
        some (((([rowC6] : List Row).length : Rat) / ((([rowC6] : List Row).length : Rat))) * 100)
      else none }

/-- Witness for C6 at a concrete group with one row and one mismatch. -/
theorem C6_mismatch_percentage_witness :
    c6pdf.percentLine = some ((100 * (c6pdf.mismatchCount : Rat)) / (c6pdf.totalCount : Rat)) :=
  (C6_mismatch_percentage true [rowC6] [rowC6] "L1" c6pdf rfl).1 (by decide)

/-- C7: whenever any of the three required columns is absent from the
worksheet, loading fails with the missing-required-columns error, and the
upload route surfaces exactly that message as an error redirect, so no
archive outcome is ever produced. -/
theorem C7_schema_error (fn : String) (sheet : Sheet)
    (hfn : fn ≠ "") (hext : allowed_file fn = true)
    (hmiss : sheet.hasAnpr = false ∨ sheet.hasTc = false ∨ sheet.hasSource = false) :
    process_excel_data sheet = .error missing_columns_msg ∧
    upload_file fn sheet = .errorRedirect ("Processing Error: " ++ missing_columns_msg) := by
  have hcond : (sheet.hasAnpr && sheet.hasTc && sheet.hasSource) = false := by
    rcases hmiss with h | h | h <;> simp [h]
  have hproc : process_excel_data sheet = .error missing_columns_msg := by
    simp [process_excel_data, hcond]
  refine ⟨hproc, ?_⟩
  simp [upload_file, hfn, hext, hproc]

/-- Worksheet lacking the source column, for the C7 witness. -/
def c7sheet : Sheet :=
  { hasAnpr := true, hasTc := true, hasSource := false, hasSeq := true,
    hasImg := true, hasVeh := true, rows := [] }

/-- Witness for C7 at a concrete worksheet missing the source column. -/
theorem C7_schema_error_witness :
    process_excel_data c7sheet = .error missing_columns_msg ∧
    upload_file "data.xlsx" c7sheet =
      .errorRedirect ("Processing Error: " ++ missing_columns_msg) :=
  C7_schema_error "data.xlsx" c7sheet (by decide) (by decide) (Or.inr (Or.inr rfl))

/-- C8: a successfully parsed dataset whose mismatch set is empty makes the
route terminate in the success outcome with the informational flash and no
archive; it is not an error path. -/
theorem C8_empty_mismatch_success (fn : String) (sheet : Sheet) (m : List Row) (c : Nat)
    (f : List Row) (hfn : fn ≠ "") (hext : allowed_file fn = true)
    (hproc : process_excel_data sheet = .ok (m, c, f)) (hm : m = []) :
    upload_file fn sheet =
      .successNoArchive "✅ File processed successfully! No near-mismatches found." := by
  subst hm
  simp [upload_file, hfn, hext, hproc]

/-- Row whose two plates agree, so the classifier rejects it. -/
def c8row : Row :=
  { anpr := "ABC123", tc := "ABC123", source := "L1", sequence := some "1",
    image_path := none, vehicle_image := none }

/-- Worksheet with one non-mismatch row, for the C8 witness. -/
def c8sheet : Sheet :=
  { hasAnpr := true, hasTc := true, hasSource := true, hasSeq := true,
    hasImg := true, hasVeh := true, rows := [c8row] }

/-- Witness for C8 at a concrete worksheet with an empty mismatch set. -/
theorem C8_empty_mismatch_success_witness :
    upload_file "data.xlsx" c8sheet =
      .successNoArchive "✅ File processed successfully! No near-mismatches found." :=
  C8_empty_mismatch_success "data.xlsx" c8sheet [] 0 [c8row]
    (by decide) (by decide) (by decide) rfl

/-- C9: the mismatch set returned by the loader is a row-preserving
sublist of the full dataset; hence every mismatch row carries a source
value occurring in the full dataset, and for every source key the mismatch
group is no larger than the full group. -/
theorem C9_mismatch_subset (sheet : Sheet) (m : List Row) (c : Nat) (f : List Row)
    (hproc : process_excel_data sheet = .ok (m, c, f)) :
    m.Sublist f ∧
    (∀ r ∈ m, r.source ∈ f.map (fun x => x.source)) ∧
    (∀ key : String,
      (m.filter (fun r => r.source == key)).length ≤
        (f.filter (fun r => r.source == key)).length) := by
  by_cases hcond : (sheet.hasAnpr && sheet.hasTc && sheet.hasSource) = true
  · rw [process_excel_data, if_pos hcond] at hproc
    simp only [Except.ok.injEq, Prod.mk.injEq] at hproc
    obtain ⟨hm, hc, hf⟩ := hproc
    subst hm
    subst hf
    refine ⟨List.filter_sublist _, ?_, ?_⟩
    · intro r hr
      exact List.mem_map_of_mem _ (List.mem_of_mem_filter hr)
    · intro key
      exact (List.Sublist.filter _ (List.filter_sublist _)).length_le
  · rw [process_excel_data, if_neg hcond] at hproc
    simp at hproc

/-- Near-mismatch row used by the C9 witness. -/
def c9row : Row :=
  { anpr := "ABC123", tc := "ABD123", source := "L1", sequence := some "1",
    image_path := none, vehicle_image := none }

/-- Worksheet with one mismatch row, for the C9 witness. -/
def c9sheet : Sheet :=
  { hasAnpr := true, hasTc := true, hasSource := true, hasSeq := true,
    hasImg := true, hasVeh := true, rows := [c9row] }

/-- Witness for C9 at a concrete worksheet: the sublist fact and the group
count comparison at the source key L1. -/
theorem C9_mismatch_subset_witness :
    ([c9row] : List Row).Sublist [c9row] ∧
    ([c9row].filter (fun r => r.source == "L1")).length ≤
      ([c9row].filter (fun r => r.source == "L1")).length :=
  ⟨(C9_mismatch_subset c9sheet [c9row] 1 [c9row] (by decide)).1,
    (C9_mismatch_subset c9sheet [c9row] 1 [c9row] (by decide)).2.2 "L1"⟩

theorem buildEntries_length (hs : Bool) (m f : List Row) :
    ∀ (keys : List String) (es : List ZipEntry),
      buildEntries hs m f keys = .ok es → es.length = keys.length := by
  intro keys
  induction keys with
  | nil =>
    intro es h
    simp only [buildEntries, Except.ok.injEq] at h
    rw [← h]
    rfl
  | cons k ks ih =>
    intro es h
    rw [buildEntries] at h
    cases hpdf : create_pdf_report hs (m.filter (fun r => r.source == k))
        (f.filter (fun r => r.source == k)) (display_source_name k) with
    | error e =>
      rw [hpdf] at h
      simp at h
    | ok pdf =>
      rw [hpdf] at h
      cases hrest : buildEntries hs m f ks with
      | error e =>
        rw [hrest] at h
        simp at h
      | ok es2 =>
        rw [hrest] at h
        simp only [Except.ok.injEq] at h
        rw [← h]
        simp [ih es2 hrest]

theorem buildEntries_names (hs : Bool) (m f : List Row) :
    ∀ (keys : List String) (es : List ZipEntry),
      buildEntries hs m f keys = .ok es →
      ∀ e ∈ es, ∃ k ∈ keys,
        e.name = "ANPR_Report_" ++ secure_filename (display_source_name k) ++ ".pdf" := by
  intro keys
  induction keys with
  | nil =>
    intro es h
    simp only [buildEntries, Except.ok.injEq] at h
    rw [← h]
    intro e he
    exact absurd he (List.not_mem_nil e)
  | cons k ks ih =>
    intro es h
    rw [buildEntries] at h
    cases hpdf : create_pdf_report hs (m.filter (fun r => r.source == k))
        (f.filter (fun r => r.source == k)) (display_source_name k) with
    | error e =>
      rw [hpdf] at h
      simp at h
    | ok pdf =>
      rw [hpdf] at h
      cases hrest : buildEntries hs m f ks with
      | error e =>
        rw [hrest] at h
        simp at h
      | ok es2 =>
        rw [hrest] at h
        simp only [Except.ok.injEq] at h
        rw [← h]
        intro e he
        rcases List.mem_cons.mp he with he1 | he2
        · exact ⟨k, List.mem_cons_self k ks, by rw [he1]⟩
        · obtain ⟨k2, hk2, hname⟩ := ih es2 hrest e he2
          exact ⟨k2, List.mem_cons_of_mem k hk2, hname⟩

/-- C5 (amended): in every archive outcome, the entry count equals the
number of distinct normalized source values carrying at least one mismatch
row, and every entry is named after the source of some mismatch row; a
source with zero mismatch rows therefore yields no report. Distinct
sources whose sanitized names collide each still produce their own entry,
so the entry count can exceed the number of distinct sanitized names. -/
theorem C5_entry_count (fn : String) (sheet : Sheet) (es : List ZipEntry) (msg : String)
    (h : upload_file fn sheet = .archiveDownload es msg) :
    ∃ m c f, process_excel_data sheet = .ok (m, c, f) ∧
      es.length = ((m.map (fun r => r.source)).dedup).length ∧
      ∀ e ∈ es, ∃ r ∈ m,
        e.name = "ANPR_Report_" ++ secure_filename (display_source_name r.source) ++ ".pdf" := by
  rw [upload_file] at h
  by_cases hfn : fn = ""
  · rw [if_pos hfn] at h
    simp at h
  rw [if_neg hfn] at h
  by_cases hext : allowed_file fn = true
  · rw [if_pos hext] at h
    cases hproc : process_excel_data sheet with
    | error e =>
      rw [hproc] at h
      simp at h
    | ok triple =>
      obtain ⟨m, c, f⟩ := triple
      rw [hproc] at h
      by_cases hemp : m.isEmpty = true
      · simp only [hemp, if_pos] at h
        simp at h
      · simp only [Bool.not_eq_true] at hemp
        simp only [hemp, Bool.false_eq_true, if_false] at h
        cases hbuild : buildEntries sheet.hasSeq m f ((m.map (fun r => r.source)).dedup) with
        | error e =>
          rw [hbuild] at h
          simp at h
        | ok entries =>
          rw [hbuild] at h
          simp only [UploadOutcome.archiveDownload.injEq] at h
          obtain ⟨hes, hmsg⟩ := h
          subst hes
          refine ⟨m, c, f, rfl, buildEntries_length _ _ _ _ _ hbuild, ?_⟩
          intro e he
          obtain ⟨k, hk, hname⟩ := buildEntries_names _ _ _ _ _ hbuild e he
          obtain ⟨r, hr, hrk⟩ := List.mem_map.mp (List.mem_dedup.mp hk)
          exact ⟨r, hr, by rw [hname, hrk]⟩
  · rw [if_neg hext] at h
    simp at h

/-- Mismatch row whose source is the empty string. -/
def c5row1 : Row :=
  { anpr := "ABC123", tc := "ABD123", source := "", sequence := some "1",
    image_path := none, vehicle_image := none }

/-- Mismatch row whose source is the literal string nan. -/
def c5row2 : Row :=
  { anpr := "ABC123", tc := "ABD123", source := "nan", sequence := some "1",
    image_path := none, vehicle_image := none }

/-- Worksheet with two mismatch rows under two distinct sources that share
the sentinel display name. -/
def c5sheet : Sheet :=
  { hasAnpr := true, hasTc := true, hasSource := true, hasSeq := true,
    hasImg := true, hasVeh := true, rows := [c5row1, c5row2] }

/-- Counterexample to C5 as stated: the empty source and the literal nan
source are distinct grouping keys, each with one mismatch row, so the
archive receives two entries; both are renamed to the sentinel
UNSPECIFIED_SOURCE, so there is exactly one distinct sanitized entry name,
and the claimed equality of the two counts fails (2 versus 1). -/
theorem C5_counterexample_duplicate_names :
    archiveEntryNames (upload_file "report.xlsx" c5sheet) =
      ["ANPR_Report_UNSPECIFIED_SOURCE.pdf", "ANPR_Report_UNSPECIFIED_SOURCE.pdf"] ∧
    (archiveEntryNames (upload_file "report.xlsx" c5sheet)).dedup.length = 1 := by decide

/-- True exactly on the archive outcome, used to drive the case split of
the C5 witness without evaluating the archive payload. -/
def isArchive : UploadOutcome → Bool
  | .archiveDownload _ _ => true
  | _ => false

/-- Witness for C5 (amended): the concrete two-source worksheet yields an
archive with exactly two entries, the number of its distinct mismatch
sources. -/
theorem C5_entry_count_witness :
    (archiveEntryNames (upload_file "report.xlsx" c5sheet)).length = 2 := by
  have hb : isArchive (upload_file "report.xlsx" c5sheet) = true := by decide
  cases hout : upload_file "report.xlsx" c5sheet with
  | errorRedirect m =>
    rw [hout] at hb
    exact absurd hb (by simp [isArchive])
  | successNoArchive m =>
    rw [hout] at hb
    exact absurd hb (by simp [isArchive])
  | archiveDownload es msg =>
    obtain ⟨m, c, f, hproc, hlen, hmem⟩ := C5_entry_count "report.xlsx" c5sheet es msg hout
    have hp2 : process_excel_data c5sheet = .ok ([c5row1, c5row2], 2, [c5row1, c5row2]) := by
      decide
    rw [hp2] at hproc
    simp only [Except.ok.injEq, Prod.mk.injEq] at hproc
    obtain ⟨hm, hc, hf⟩ := hproc
    rw [archiveEntryNames, List.length_map, hlen, ← hm]
    decide

/-- Worksheet containing only the three required columns and one
near-mismatch row: the input claim C4 promises an archive for. -/
def c4sheet : Sheet :=
  { hasAnpr := true, hasTc := true, hasSource := true, hasSeq := false,
    hasImg := false, hasVeh := false,
    rows := [{ anpr := "ABC123", tc := "ABD123", source := "Lane1", sequence := none,
               image_path := none, vehicle_image := none }] }

/-- C4 evaluated at the failing input: with the optional ANPR Sequence
column absent, create_pdf_report indexes the missing column while computing
the zero-sequence count (test2.py line 234), the resulting KeyError is
caught by the blanket handler of the route (line 351), and the request ends
in an error flash with no archive, contradicting the claimed end-to-end
success with defaults. -/
theorem C4_missing_sequence_column_fails :
    upload_file "data.xlsx" c4sheet =
      .errorRedirect
        ("An unexpected error occurred during processing or report generation: " ++
          "KeyError: ANPR Sequence") := by decide
